import Mathlib

/-!
A verification development for the honeypot-scam-api repository
(src/logic.py and src/main.py), shallowly embedded in Lean 4.

Modelling conventions:
  * A Python string is a list of characters (abbreviated Str).  String
    lowering is modelled character-wise on the ASCII fragment, matching
    Python str.lower on ASCII text.
  * Every score contribution in logic.py is an exact multiple of 0.1 and
    the threshold is 0.4, so scores and confidences are represented as
    natural numbers in HUNDREDTHS of the Python float value (0.3 becomes
    30, the cap 1.0 becomes 100, the threshold 0.4 becomes 40).  At the
    only decision points (the comparison with 0.4 and the cap at 1.0) the
    IEEE-754 evaluation in Python agrees with exact arithmetic on tenths:
    the sums 0.3+0.1 and 0.2+0.2 both evaluate to the double nearest 0.4,
    so the strict comparison 0.4 > 0.4 is false exactly as in the exact
    model, and rounding to two decimals is the identity on hundredths.
  * re.search and re.findall are embedded for the four concrete patterns
    of logic.py (ASCII fragment of \d, \b, \s), with the leftmost,
    non-overlapping semantics of re.findall made explicit.
  * Fallible Python behaviour (calling .lower on a non-string, handing a
    non-string to re.findall, an injected fault in a logic function) is
    modelled with Except.
-/

namespace HoneypotApi

abbrev Str := List Char

/-- Convert a Lean string literal to the character-list representation. -/
def str (s : String) : Str := s.toList

/-- Python substring test: needle in hay (True when some suffix of hay
starts with needle; the empty needle is in every string). -/
def pyIn (needle : Str) : Str → Bool
  | [] => needle.isEmpty
  | c :: t => needle.isPrefixOf (c :: t) || pyIn needle t

/-- logic.py line 34: the scam-indicator keyword list. -/
def SCAM_KEYWORDS : List Str :=
  [str "account", str "blocked", str "suspended", str "verify",
   str "fraud", str "security", str "alert", str "urgent"]

/-- logic.py line 39: the urgency keyword list. -/
def URGENCY_KEYWORDS : List Str :=
  [str "urgent", str "immediately", str "now", str "asap"]

/-- logic.py line 43: the payment keyword list. -/
def PAYMENT_KEYWORDS : List Str :=
  [str "pay", str "payment", str "transfer", str "upi", str "bank"]

/-- Character class of the payment-handle (UPI) pattern:
letters, digits, dot, hyphen, underscore. -/
def isUpiChar (c : Char) : Bool :=
  c.isAlpha || c.isDigit || c == '.' || c == '-' || c == '_'

/-- ASCII word character, the class behind the regex word boundary:
letters, digits, underscore. -/
def isWordChar (c : Char) : Bool :=
  c.isAlpha || c.isDigit || c == '_'

/-- Does a match of the URL pattern https?://[^\s]+ start at the head of
the list?  The pattern needs the literal prefix http:// or https://
followed by at least one non-whitespace character. -/
def urlAt : Str → Bool
  | 'h' :: 't' :: 't' :: 'p' :: 's' :: ':' :: '/' :: '/' :: c :: _ => !c.isWhitespace
  | 'h' :: 't' :: 't' :: 'p' :: ':' :: '/' :: '/' :: c :: _ => !c.isWhitespace
  | _ => false

/-- re.search of the URL pattern: a match starts at some position. -/
def urlSearch : Str → Bool
  | [] => false
  | c :: t => urlAt (c :: t) || urlSearch t

/-- Does a match of the UPI pattern [a-zA-Z0-9.\-_]{2,}@[a-zA-Z]{2,}
start at the head of the list?  Because the at-sign is not in the first
character class, the first block is forced to be the maximal run of
class characters at this position, so a match starts here exactly when
that run has length at least 2, is followed by the at-sign, and then by
at least two letters. -/
def upiAt (l : Str) : Bool :=
  let run := l.takeWhile isUpiChar
  let rest := l.dropWhile isUpiChar
  decide (2 ≤ run.length) &&
    (match rest with
     | '@' :: d1 :: d2 :: _ => d1.isAlpha && d2.isAlpha
     | _ => false)

/-- re.search of the UPI pattern: a match starts at some position. -/
def upiSearch : Str → Bool
  | [] => false
  | c :: t => upiAt (c :: t) || upiSearch t

/-- Does a match of the bank-account pattern \b\d{9,18}\b start at this
position, given whether the previous character was a word character?
Digits are word characters, so the matched block must be a maximal digit
run flanked on both sides by a non-word character or a string end, of
length between 9 and 18. -/
def bankAt (prevIsWord : Bool) (l : Str) : Bool :=
  let run := l.takeWhile Char.isDigit
  let rest := l.dropWhile Char.isDigit
  decide (9 ≤ run.length) && decide (run.length ≤ 18) && !prevIsWord &&
    (match rest with
     | [] => true
     | c :: _ => !isWordChar c)

/-- Scan for the bank-account pattern, tracking whether the previous
character was a word character. -/
def bankSearchAux (prevIsWord : Bool) : Str → Bool
  | [] => false
  | c :: t => bankAt prevIsWord (c :: t) || bankSearchAux (isWordChar c) t

/-- re.search of the bank-account pattern \b\d{9,18}\b. -/
def bankSearch (l : Str) : Bool := bankSearchAux false l

/-- logic.py lines 67-92, detect_scam, in hundredths.
The sequential score accumulation mirrors the source line by line:
  * +0.3 + min(keyword_count * 0.1, 0.5) when any scam keyword occurs in
    the lowercased message (lines 71-73),
  * +0.2 for an urgency keyword (lines 75-76),
  * +0.2 for a payment keyword (lines 78-79),
  * +0.2 for a URL match on the raw message (lines 81-82),
  * +0.3 for a UPI match and +0.3 for a bank-account match on the raw
    message (lines 84-87),
then confidence = min(score, 1.0) and is_scam = confidence > 0.4
(lines 89-92); rounding to two decimals is the identity here. -/
def detect_scam (message : Str) : Bool × ℕ :=
  let message_lower := message.map Char.toLower
  let keyword_count := SCAM_KEYWORDS.countP (fun w => pyIn w message_lower)
  let score1 : ℕ := if 0 < keyword_count then 30 + min (keyword_count * 10) 50 else 0
  let score2 := if URGENCY_KEYWORDS.any (fun w => pyIn w message_lower) then score1 + 20 else score1
  let score3 := if PAYMENT_KEYWORDS.any (fun w => pyIn w message_lower) then score2 + 20 else score2
  let score4 := if urlSearch message then score3 + 20 else score3
  let score5 := if upiSearch message then score4 + 30 else score4
  let score6 := if bankSearch message then score5 + 30 else score5
  let confidence := min score6 100
  let is_scam := decide (40 < confidence)
  (is_scam, confidence)

example : detect_scam (str "Hello friend") = (false, 0) := by decide
example : (detect_scam (str "URGENT: verify your account now")).1 = true := by decide

/-! ## Entity extraction: re.findall for the four patterns

re.findall returns the leftmost non-overlapping matches, scanning left
to right and resuming right after each match; with no groups in these
patterns it returns the full matched substrings.  Each scan below is
written with a character-count fuel equal to the length of the input:
every recursive call consumes at least one character, so the fuel never
runs out before the list does. -/

/-- Leftmost match of the UPI pattern starting exactly here: the greedy
first block is the maximal run of class characters, the greedy second
block the maximal run of letters after the at-sign (both of length at
least 2).  Returns the matched text and the remaining suffix. -/
def upiMatchAt (l : Str) : Option (Str × Str) :=
  let run := l.takeWhile isUpiChar
  let rest := l.dropWhile isUpiChar
  if 2 ≤ run.length then
    match rest with
    | '@' :: aft =>
      let run2 := aft.takeWhile Char.isAlpha
      let rest2 := aft.dropWhile Char.isAlpha
      if 2 ≤ run2.length then some (run ++ '@' :: run2, rest2) else none
    | _ => none
  else none

/-- Fuelled scan for re.findall of the UPI pattern. -/
def upiFindallAux : ℕ → Str → List Str
  | 0, _ => []
  | _, [] => []
  | fuel + 1, c :: t =>
    match upiMatchAt (c :: t) with
    | some (m, rest) => m :: upiFindallAux fuel rest
    | none => upiFindallAux fuel t

/-- re.findall of the UPI pattern (logic.py line 99). -/
def upiFindall (l : Str) : List Str := upiFindallAux l.length l

/-- Fuelled scan for re.findall of the bank-account pattern
\b\d{9,18}\b: a match is a maximal digit run of length 9 to 18 flanked
by non-word characters or string ends; after a match the scan resumes
after the run (whose last character is a word character). -/
def bankFindallAux : ℕ → Bool → Str → List Str
  | 0, _, _ => []
  | _, _, [] => []
  | fuel + 1, prevIsWord, c :: t =>
    let run := (c :: t).takeWhile Char.isDigit
    let rest := (c :: t).dropWhile Char.isDigit
    if bankAt prevIsWord (c :: t) then run :: bankFindallAux fuel true rest
    else bankFindallAux fuel (isWordChar c) t

/-- re.findall of the bank-account pattern (logic.py line 100). -/
def bankFindall (l : Str) : List Str := bankFindallAux l.length false l

/-- Match of the IFSC pattern \b[A-Z]{4}0[A-Z0-9]{6}\b starting exactly
here: four ASCII uppercase letters, the literal digit 0, six uppercase
letters or digits, flanked by non-word characters or string ends.  All
block lengths are fixed, so there is no backtracking. -/
def ifscAt (prevIsWord : Bool) (l : Str) : Option (Str × Str) :=
  if prevIsWord then none else
  match l with
  | a :: b :: c :: d :: '0' :: e1 :: e2 :: e3 :: e4 :: e5 :: e6 :: rest =>
    if a.isUpper && b.isUpper && c.isUpper && d.isUpper &&
       (e1.isUpper || e1.isDigit) && (e2.isUpper || e2.isDigit) &&
       (e3.isUpper || e3.isDigit) && (e4.isUpper || e4.isDigit) &&
       (e5.isUpper || e5.isDigit) && (e6.isUpper || e6.isDigit) &&
       (match rest with | [] => true | x :: _ => !isWordChar x) then
      some ([a, b, c, d, '0', e1, e2, e3, e4, e5, e6], rest)
    else none
  | _ => none

/-- Fuelled scan for re.findall of the IFSC pattern. -/
def ifscFindallAux : ℕ → Bool → Str → List Str
  | 0, _, _ => []
  | _, _, [] => []
  | fuel + 1, prevIsWord, c :: t =>
    match ifscAt prevIsWord (c :: t) with
    | some (m, rest) => m :: ifscFindallAux fuel true rest
    | none => ifscFindallAux fuel (isWordChar c) t

/-- re.findall of the IFSC pattern (logic.py line 101). -/
def ifscFindall (l : Str) : List Str := ifscFindallAux l.length false l

/-- Leftmost match of the URL pattern starting exactly here: the literal
prefix (with the optional s resolved greedily) followed by the maximal
nonempty run of non-whitespace characters. -/
def urlMatchAt (l : Str) : Option (Str × Str) :=
  match l with
  | 'h' :: 't' :: 't' :: 'p' :: 's' :: ':' :: '/' :: '/' :: aft =>
    let run := aft.takeWhile (fun c => !c.isWhitespace)
    let rest := aft.dropWhile (fun c => !c.isWhitespace)
    if 1 ≤ run.length then some (str "https://" ++ run, rest) else none
  | 'h' :: 't' :: 't' :: 'p' :: ':' :: '/' :: '/' :: aft =>
    let run := aft.takeWhile (fun c => !c.isWhitespace)
    let rest := aft.dropWhile (fun c => !c.isWhitespace)
    if 1 ≤ run.length then some (str "http://" ++ run, rest) else none
  | _ => none

/-- Fuelled scan for re.findall of the URL pattern. -/
def urlFindallAux : ℕ → Str → List Str
  | 0, _ => []
  | _, [] => []
  | fuel + 1, c :: t =>
    match urlMatchAt (c :: t) with
    | some (m, rest) => m :: urlFindallAux fuel rest
    | none => urlFindallAux fuel t

/-- re.findall of the URL pattern (logic.py line 102). -/
def urlFindall (l : Str) : List Str := urlFindallAux l.length l

/-- The entity set: the four sequences returned by extract_entities
(main.py ExtractedEntities has the same four fields). -/
structure Entities where
  upi_ids : List Str
  bank_accounts : List Str
  ifsc_codes : List Str
  phishing_links : List Str
deriving DecidableEq, Repr

/-- logic.py lines 97-103: extract_entities on a string runs the four
independent findall projections over the raw message. -/
def extract_entities (message : Str) : Entities :=
  { upi_ids := upiFindall message
    bank_accounts := bankFindall message
    ifsc_codes := ifscFindall message
    phishing_links := urlFindall message }

example : extract_entities (str "Pay to 1234567890 and IFSC ABCD0123456 and upi test@okicici") =
    { upi_ids := [str "test@okicici"], bank_accounts := [str "1234567890"],
      ifsc_codes := [str "ABCD0123456"], phishing_links := [] } := by decide

/-! ## Persona states, transition function, reply generator, store -/

/-- logic.py lines 20-24: persona states are the four string constants. -/
def PersonaState.IDLE : Str := str "idle"

def PersonaState.CONFUSED : Str := str "confused"

def PersonaState.TRUSTING : Str := str "trusting"

def PersonaState.EXTRACTING : Str := str "extracting"

/-- logic.py lines 108-138: determine_next_state, mirroring the source
dispatch order: a non-scam verdict returns IDLE at once; otherwise the
payment-entity flag (UPI ids, bank accounts or phishing links nonempty;
IFSC codes do not count) feeds only the TRUSTING branch. -/
def determine_next_state (current_state : Str) (_message : Str)
    (entities : Entities) (is_scam : Bool) : Str :=
  if !is_scam then PersonaState.IDLE
  else
    let has_payment_info :=
      decide (0 < entities.upi_ids.length) ||
      decide (0 < entities.bank_accounts.length) ||
      decide (0 < entities.phishing_links.length)
    if current_state = PersonaState.IDLE then PersonaState.CONFUSED
    else if current_state = PersonaState.CONFUSED then PersonaState.TRUSTING
    else if current_state = PersonaState.TRUSTING then
      (if has_payment_info then PersonaState.EXTRACTING else PersonaState.TRUSTING)
    else if current_state = PersonaState.EXTRACTING then PersonaState.EXTRACTING
    else PersonaState.IDLE

/-- random.choice on a list: selects an element, here the one at the
index given by the randomness parameter reduced modulo the length.  All
call sites pass nonempty literal lists, so the default is unreachable. -/
def pyChoice (l : List Str) (r : ℕ) : Str := l.getD (r % l.length) []

/-- logic.py lines 178-223: generate_agent_reply, deterministic fallback
path (lines 191-223).  The primary path (lines 184-189) calls the
external LLM and on any failure falls through silently to this path; the
randomness of random.choice is made explicit via the parameter r. -/
def generate_agent_reply (state : Str) (_message : Str)
    (entities : Entities) (r : ℕ) : Str :=
  if state = PersonaState.IDLE then
    str "Hello, I received this message but I am not sure what it is about."
  else if state = PersonaState.CONFUSED then
    pyChoice
      [str "I am a bit confused, can you explain this again?",
       str "Sorry, I am not very good with these things. What should I do?",
       str "Hello, is there a problem with my account?"] r
  else if state = PersonaState.TRUSTING then
    pyChoice
      [str "Okay, I understand. Please tell me the next step.",
       str "Thank you for explaining. How do I fix this?",
       str "I just want this issue to be resolved."] r
  else if state = PersonaState.EXTRACTING then
    if !entities.upi_ids.isEmpty then
      str "I tried the UPI ID but it failed. Is there another UPI or bank account?"
    else if !entities.bank_accounts.isEmpty then
      str "It is asking for IFSC code. Can you send that also?"
    else if !entities.phishing_links.isEmpty then
      str "The link is not opening properly. Is there another one?"
    else
      pyChoice
        [str "The payment is not going through. Can you send details again?",
         str "My app is showing an error. What should I do now?",
         str "Can this be done in another way?"] r
  else str "Sorry, I am not sure what to do."

/-- logic.py line 29: the in-memory conversation map, modelled as an
association list with unique keys kept in insertion order (the
observable behaviour of a Python dict under get and item assignment). -/
abbrev Store := List (String × Str)

/-- logic.py lines 58-59: dict.get with default IDLE. -/
def get_persona_state (store : Store) (conversation_id : String) : Str :=
  match store.find? (fun p => p.1 == conversation_id) with
  | some p => p.2
  | none => PersonaState.IDLE

/-- logic.py lines 61-62: dict item assignment, overwriting the binding
for the key when present and appending a fresh binding otherwise. -/
def update_persona_state (store : Store) (conversation_id : String) (new_state : Str) : Store :=
  if store.any (fun p => p.1 == conversation_id) then
    store.map (fun p => if p.1 == conversation_id then (conversation_id, new_state) else p)
  else store ++ [(conversation_id, new_state)]

/-! ## Python dynamic typing and the transport boundary (main.py) -/

/-- A Python value handed to a logic function: either a string or some
non-string object (None, a number, a list, ...). -/
inductive PyVal where
  | pstr (s : Str)
  | nonStr
deriving DecidableEq

/-- Python exceptions relevant to the embedded fragment. -/
inductive PyErr where
  | attributeError
  | typeError
  | valueError
deriving DecidableEq

/-- detect_scam at the dynamic-typing boundary: logic.py line 68 calls
message.lower(), which raises AttributeError when the argument is not a
string (there is no type guard in the source). -/
def detect_scamPy : PyVal → Except PyErr (Bool × ℕ)
  | .pstr s => .ok (detect_scam s)
  | .nonStr => .error .attributeError

/-- extract_entities at the dynamic-typing boundary: logic.py lines
99-102 call re.findall on the argument, which raises TypeError when the
argument is not a string or bytes-like (there is no type guard). -/
def extract_entitiesPy : PyVal → Except PyErr Entities
  | .pstr s => .ok (extract_entities s)
  | .nonStr => .error .typeError

/-- main.py HoneypotResponse, with confidence in hundredths. -/
structure HoneypotResponse where
  is_scam : Bool
  confidence : ℕ
  agent_reply : Str
  extracted_entities : Entities
  persona_state : Str
deriving DecidableEq, Repr

/-- main.py lines 47-54: the safe default response.  Note the source
sets confidence to 0.8, not 0. -/
def get_safe_response (reply : Str) : HoneypotResponse :=
  { is_scam := false
    confidence := 80
    agent_reply := reply
    extracted_entities := { upi_ids := [], bank_accounts := [], ifsc_codes := [], phishing_links := [] }
    persona_state := str "idle" }

/-- The five logic calls the POST handler makes, each fallible so that
an unexpected internal fault (as injected by test_robustness via
monkey-patching) can be modelled in any of them. -/
structure LogicModule where
  detect_scam : Str → Except PyErr (Bool × ℕ)
  extract_entities : Str → Except PyErr Entities
  determine_next_state : Str → Str → Entities → Bool → Except PyErr Str
  generate_agent_reply : Str → Str → Entities → Except PyErr Str

/-- The body of the try block of main.py lines 94-129: detect, clamp the
confidence (line 100; the lower clamp at 0 is the identity on ℕ),
extract, read the current persona state, compute the next state,
generate the reply, write the next state back, and build the response. -/
def honeypot_body (L : LogicModule) (store : Store)
    (conversation_id : String) (message : Str) :
    Except PyErr (HoneypotResponse × Store) := do
  let (is_scam, confidence0) ← L.detect_scam message
  let confidence := min 100 confidence0
  let entities ← L.extract_entities message
  let current_state := get_persona_state store conversation_id
  let next_state ← L.determine_next_state current_state message entities is_scam
  let agent_reply ← L.generate_agent_reply next_state message entities
  let store2 := update_persona_state store conversation_id next_state
  pure ({ is_scam := is_scam
          confidence := confidence
          agent_reply := agent_reply
          extracted_entities := entities
          persona_state := next_state }, store2)

/-- main.py lines 85-133, the POST handler around the try block: any
exception escaping the body is caught (lines 131-133) and converted to
the safe default response, leaving the store untouched. -/
def honeypot_post (L : LogicModule) (store : Store)
    (conversation_id : String) (message : Str) : HoneypotResponse × Store :=
  match honeypot_body L store conversation_id message with
  | .ok r => r
  | .error _ => (get_safe_response (str "Internal error handled safely."), store)

/-- The real logic module: every call succeeds on string input.  The
reply randomness is fixed to 0 here; fault injection replaces fields. -/
def realLogic : LogicModule :=
  { detect_scam := fun m => .ok (detect_scam m)
    extract_entities := fun m => .ok (extract_entities m)
    determine_next_state := fun c m e b => .ok (determine_next_state c m e b)
    generate_agent_reply := fun s m e => .ok (generate_agent_reply s m e 0) }

/-- The module with the injected fault of test_robustness: detect_scam
raises ValueError. -/
def crashingLogic : LogicModule :=
  { realLogic with detect_scam := fun _ => .error PyErr.valueError }

/-! ## Claim C1 -/

/-- C1: for every string message, the verdict of detect_scam has its
confidence in the interval from 0.0 to 1.0 (0 to 100 hundredths; the
lower bound is definitional on ℕ), and is_scam is true exactly when the
confidence is strictly greater than 0.4 (40 hundredths). -/
theorem detect_scam_verdict_invariant (m : Str) :
    (detect_scam m).2 ≤ 100 ∧ ((detect_scam m).1 = true ↔ 40 < (detect_scam m).2) := by
  unfold detect_scam
  refine ⟨Nat.min_le_right _ _, ?_⟩
  exact decide_eq_true_iff

/-! ## Claim C2 -/

/-- The total score named by the spec, written from the spec sentence:
the count-weighted keyword variant documented in the source (0.3 plus
min of count times 0.1 and 0.5, when any scam keyword occurs in the
lowercased message), plus 0.2 for an urgency keyword, 0.2 for a payment
keyword, 0.2 for a URL match, 0.3 for a payment-handle match and 0.3
for a bank-account match on the raw message; in hundredths. -/
def spec_total (m : Str) : ℕ :=
  (if SCAM_KEYWORDS.any (fun w => pyIn w (m.map Char.toLower)) then
      30 + min ((SCAM_KEYWORDS.countP (fun w => pyIn w (m.map Char.toLower))) * 10) 50
    else 0)
  + (if URGENCY_KEYWORDS.any (fun w => pyIn w (m.map Char.toLower)) then 20 else 0)
  + (if PAYMENT_KEYWORDS.any (fun w => pyIn w (m.map Char.toLower)) then 20 else 0)
  + (if urlSearch m then 20 else 0)
  + (if upiSearch m then 30 else 0)
  + (if bankSearch m then 30 else 0)

/-- The confidence named by the spec: the total clamped to 1.0 and
rounded to two decimals, the rounding being the identity in hundredths. -/
def spec_confidence (m : Str) : ℕ := min (spec_total m) 100

/-- C2: for every string message, the confidence returned by
detect_scam equals round(min(total, 1.0), 2) for the additive total of
the spec, with the count-weighted keyword variant that the source
implements. -/
theorem detect_scam_confidence_formula (m : Str) :
    (detect_scam m).2 = spec_confidence m := by
  unfold detect_scam spec_confidence spec_total
  dsimp only
  have hg : (0 < SCAM_KEYWORDS.countP (fun w => pyIn w (m.map Char.toLower))) ↔
      (SCAM_KEYWORDS.any (fun w => pyIn w (m.map Char.toLower)) = true) := by
    rw [List.countP_pos_iff, List.any_eq_true]
  simp only [hg]
  split_ifs <;> omega

/-! ## Claim C3 -/

/-- The payment-entity flag named by the spec: at least one payment
handle, bank account, or link was extracted; routing codes do not
count. -/
def has_payment_entities (e : Entities) : Bool :=
  !e.upi_ids.isEmpty || !e.bank_accounts.isEmpty || !e.phishing_links.isEmpty

/-- The transition table of the spec, a function of the current state,
the verdict, and the payment-entity flag only (rows IDLE, CONFUSED,
TRUSTING, EXTRACTING; the final branch is the EXTRACTING row). -/
def spec_next_state (current : Str) (is_scam has_payment : Bool) : Str :=
  if !is_scam then PersonaState.IDLE
  else if current = PersonaState.IDLE then PersonaState.CONFUSED
  else if current = PersonaState.CONFUSED then PersonaState.TRUSTING
  else if current = PersonaState.TRUSTING then
    (if has_payment then PersonaState.EXTRACTING else PersonaState.TRUSTING)
  else PersonaState.EXTRACTING

/-- C3: on the four-state set, determine_next_state returns exactly the
table entry determined by the current state, the verdict, and the
payment-entity flag; the message argument never influences the result. -/
theorem determine_next_state_matches_table (current message : Str)
    (entities : Entities) (is_scam : Bool)
    (h : current = PersonaState.IDLE ∨ current = PersonaState.CONFUSED ∨
         current = PersonaState.TRUSTING ∨ current = PersonaState.EXTRACTING) :
    determine_next_state current message entities is_scam =
      spec_next_state current is_scam (has_payment_entities entities) ∧
    ∀ message2, determine_next_state current message entities is_scam =
      determine_next_state current message2 entities is_scam := by
  refine ⟨?_, fun message2 => rfl⟩
  obtain ⟨u, b, i, p⟩ := entities
  rcases h with h | h | h | h <;> subst h <;> cases is_scam <;>
    cases u <;> cases b <;> cases p <;>
    first
      | rfl
      | simp [determine_next_state, spec_next_state, has_payment_entities]

/-- Witness for C3 at a concrete point: from TRUSTING on a scam verdict
with one extracted UPI id, the table row is taken. -/
theorem determine_next_state_matches_table_witness :
    determine_next_state PersonaState.TRUSTING (str "send to abc@upi")
      { upi_ids := [str "abc@upi"], bank_accounts := [], ifsc_codes := [], phishing_links := [] }
      true =
    spec_next_state PersonaState.TRUSTING true
      (has_payment_entities
        { upi_ids := [str "abc@upi"], bank_accounts := [], ifsc_codes := [], phishing_links := [] }) :=
  (determine_next_state_matches_table _ _ _ _ (Or.inr (Or.inr (Or.inl rfl)))).1

/-! ## Claims C7 and C8 -/

/-- random.choice on a three-element list returns one of the three
elements, whatever the randomness parameter. -/
theorem pyChoice_mem_three (a b c : Str) (r : ℕ) :
    pyChoice [a, b, c] r = a ∨ pyChoice [a, b, c] r = b ∨ pyChoice [a, b, c] r = c := by
  have h : r % 3 < 3 := Nat.mod_lt _ (by norm_num)
  unfold pyChoice
  rcases hr : r % 3 with _ | n
  · left; simp [hr]
  · rcases n with _ | n
    · right; left; simp [hr]
    · rcases n with _ | n
      · right; right; simp [hr]
      · omega

/-- C7: for every state value, message, entity set and randomness, the
deterministic reply path is total (the embedding is a function), never
returns the empty string, and returns the fixed apology string whenever
the state lies outside the closed four-state set. -/
theorem generate_agent_reply_total (state message : Str) (entities : Entities) (r : ℕ) :
    generate_agent_reply state message entities r ≠ [] ∧
    (state ∉ [PersonaState.IDLE, PersonaState.CONFUSED,
              PersonaState.TRUSTING, PersonaState.EXTRACTING] →
      generate_agent_reply state message entities r = str "Sorry, I am not sure what to do.") := by
  constructor
  · unfold generate_agent_reply
    split_ifs <;>
      first
        | decide
        | (rcases pyChoice_mem_three _ _ _ r with h | h | h <;> rw [h] <;> decide)
  · intro hmem
    simp only [List.mem_cons, List.not_mem_nil, or_false, not_or] at hmem
    obtain ⟨h1, h2, h3, h4⟩ := hmem
    unfold generate_agent_reply
    rw [if_neg h1, if_neg h2, if_neg h3, if_neg h4]

/-- Witness for C7 at a concrete point: a state outside the closed set
gets the apology string. -/
theorem generate_agent_reply_total_witness :
    generate_agent_reply (str "panicking") (str "hello")
      { upi_ids := [], bank_accounts := [], ifsc_codes := [], phishing_links := [] } 0 =
      str "Sorry, I am not sure what to do." :=
  (generate_agent_reply_total (str "panicking") (str "hello") _ 0).2 (by decide)

/-- C8: in state EXTRACTING the deterministic reply follows the fixed
priority order: a UPI id asks for an alternate handle; otherwise a bank
account asks for the routing code; otherwise a link asks for an
alternate link; otherwise the reply is one of the three generic
payment-did-not-go-through prompts. -/
theorem generate_agent_reply_extracting_priority (message : Str) (entities : Entities) (r : ℕ) :
    (entities.upi_ids ≠ [] →
      generate_agent_reply PersonaState.EXTRACTING message entities r =
        str "I tried the UPI ID but it failed. Is there another UPI or bank account?") ∧
    (entities.upi_ids = [] → entities.bank_accounts ≠ [] →
      generate_agent_reply PersonaState.EXTRACTING message entities r =
        str "It is asking for IFSC code. Can you send that also?") ∧
    (entities.upi_ids = [] → entities.bank_accounts = [] → entities.phishing_links ≠ [] →
      generate_agent_reply PersonaState.EXTRACTING message entities r =
        str "The link is not opening properly. Is there another one?") ∧
    (entities.upi_ids = [] → entities.bank_accounts = [] → entities.phishing_links = [] →
      generate_agent_reply PersonaState.EXTRACTING message entities r ∈
        [str "The payment is not going through. Can you send details again?",
         str "My app is showing an error. What should I do now?",
         str "Can this be done in another way?"]) := by
  unfold generate_agent_reply
  rw [if_neg (by decide), if_neg (by decide), if_neg (by decide), if_pos rfl]
  refine ⟨?_, ?_, ?_, ?_⟩
  · intro hu
    rw [if_pos (by simp [List.isEmpty_iff, hu])]
  · intro hu hb
    rw [if_neg (by simp [List.isEmpty_iff, hu]), if_pos (by simp [List.isEmpty_iff, hb])]
  · intro hu hb hp
    rw [if_neg (by simp [List.isEmpty_iff, hu]), if_neg (by simp [List.isEmpty_iff, hb]),
        if_pos (by simp [List.isEmpty_iff, hp])]
  · intro hu hb hp
    rw [if_neg (by simp [List.isEmpty_iff, hu]), if_neg (by simp [List.isEmpty_iff, hb]),
        if_neg (by simp [List.isEmpty_iff, hp])]
    simpa using pyChoice_mem_three _ _ _ r

/-- Witness for C8 at a concrete point: with a bank account and a link
but no UPI id, the routing-code prompt wins. -/
theorem generate_agent_reply_extracting_priority_witness :
    generate_agent_reply PersonaState.EXTRACTING (str "use 123456789")
      { upi_ids := [], bank_accounts := [str "123456789"], ifsc_codes := [],
        phishing_links := [str "http://a.example"] } 0 =
      str "It is asking for IFSC code. Can you send that also?" :=
  (generate_agent_reply_extracting_priority (str "use 123456789") _ 0).2.1 rfl (by decide)

/-! ## Claim C9 -/

/-- C9: a conversation identifier that was never stored reads back as
IDLE (dict.get default), and after put the identifier reads back as the
stored state, whatever the prior store content: put overwrites. -/
theorem persona_store_get_put (store : Store) (conversation_id : String) (s : Str) :
    ((∀ p ∈ store, p.1 ≠ conversation_id) →
      get_persona_state store conversation_id = PersonaState.IDLE) ∧
    get_persona_state (update_persona_state store conversation_id s) conversation_id = s := by
  constructor
  · intro hfresh
    unfold get_persona_state
    rw [List.find?_eq_none.mpr (fun p hp => by simpa using hfresh p hp)]
  · unfold update_persona_state
    by_cases hany : store.any (fun p => p.1 == conversation_id) = true
    · rw [if_pos hany]
      induction store with
      | nil => simp at hany
      | cons hd tl ih =>
        unfold get_persona_state
        simp only [List.map_cons, List.find?]
        by_cases hhd : hd.1 == conversation_id
        · simp [hhd]
        · simp only [Bool.not_eq_true] at hhd
          rw [if_neg (by simp [hhd]), hhd]
          have htl : tl.any (fun p => p.1 == conversation_id) = true := by
            simpa [List.any_cons, hhd] using hany
          simpa [get_persona_state] using ih htl
    · rw [if_neg hany]
      have hnone : store.find? (fun p => p.1 == conversation_id) = none := by
        rw [List.find?_eq_none]
        intro x hx hpx
        exact hany (List.any_eq_true.mpr ⟨x, hx, hpx⟩)
      unfold get_persona_state
      rw [List.find?_append, hnone]
      simp

/-- Witness for C9 at a concrete point: an unseen identifier reads as
IDLE, and overwriting an existing binding reads back the new state. -/
theorem persona_store_get_put_witness :
    get_persona_state [("a", PersonaState.CONFUSED)] "b" = PersonaState.IDLE ∧
    get_persona_state
      (update_persona_state [("a", PersonaState.CONFUSED)] "a" PersonaState.TRUSTING) "a" =
      PersonaState.TRUSTING :=
  ⟨(persona_store_get_put [("a", PersonaState.CONFUSED)] "b" PersonaState.IDLE).1 (by decide),
   (persona_store_get_put [("a", PersonaState.CONFUSED)] "a" PersonaState.TRUSTING).2⟩

/-! ## Claims C5 and C6: input typing at the logic boundary -/

/-- A whitespace character is unchanged by lowering. -/
theorem toLower_of_isWhitespace (c : Char) (h : c.isWhitespace = true) :
    c.toLower = c := by
  have hd := by simpa [Char.isWhitespace] using h
  rcases hd with ((h1 | h1) | h1) | h1 <;> subst h1 <;> rfl

/-- Every character of a needle found inside a haystack occurs in the
haystack. -/
theorem mem_of_pyIn (w hay : Str) (h : pyIn w hay = true) :
    ∀ c ∈ w, c ∈ hay := by
  induction hay with
  | nil =>
    intro c hc
    cases w with
    | nil => simp at hc
    | cons a b => simp [pyIn, List.isEmpty] at h
  | cons d t ih =>
    rw [pyIn, Bool.or_eq_true] at h
    rcases h with h | h
    · intro c hc
      exact (List.isPrefixOf_iff_prefix.mp h).sublist.subset hc
    · intro c hc
      exact List.mem_cons_of_mem _ (ih h c hc)

/-- No URL-pattern match starts inside an all-whitespace string. -/
theorem urlSearch_eq_false_of_whitespace (s : Str)
    (h : ∀ c ∈ s, c.isWhitespace = true) : urlSearch s = false := by
  induction s with
  | nil => rfl
  | cons c t ih =>
    have hc : c.isWhitespace = true := h c (List.mem_cons_self ..)
    have hat : urlAt (c :: t) = false := by
      have hd := by simpa [Char.isWhitespace] using hc
      rcases hd with ((h1 | h1) | h1) | h1 <;> subst h1 <;> rfl
    rw [urlSearch, hat, ih (fun d hd => h d (List.mem_cons_of_mem _ hd))]
    rfl

/-- No UPI-pattern match starts inside an all-whitespace string. -/
theorem upiSearch_eq_false_of_whitespace (s : Str)
    (h : ∀ c ∈ s, c.isWhitespace = true) : upiSearch s = false := by
  induction s with
  | nil => rfl
  | cons c t ih =>
    have hc : c.isWhitespace = true := h c (List.mem_cons_self ..)
    have hat : upiAt (c :: t) = false := by
      have hd := by simpa [Char.isWhitespace] using hc
      rcases hd with ((h1 | h1) | h1) | h1 <;> subst h1 <;> rfl
    rw [upiSearch, hat, ih (fun d hd => h d (List.mem_cons_of_mem _ hd))]
    rfl

/-- No bank-account-pattern match starts inside an all-whitespace
string, whatever the previous-character flag. -/
theorem bankSearchAux_eq_false_of_whitespace (s : Str)
    (h : ∀ c ∈ s, c.isWhitespace = true) (prev : Bool) :
    bankSearchAux prev s = false := by
  induction s generalizing prev with
  | nil => rfl
  | cons c t ih =>
    have hc : c.isWhitespace = true := h c (List.mem_cons_self ..)
    have hat : bankAt prev (c :: t) = false := by
      have hd := by simpa [Char.isWhitespace] using hc
      rcases hd with ((h1 | h1) | h1) | h1 <;> subst h1 <;> rfl
    rw [bankSearchAux, hat, ih (fun d hd => h d (List.mem_cons_of_mem _ hd))]
    rfl

/-- C5 counterexample: on a non-string value detect_scam raises an
AttributeError (message.lower() on line 68 has no type guard) instead of
returning (false, 0.0) as the claim states. -/
theorem detect_scam_non_string_counterexample :
    detect_scamPy PyVal.nonStr = .error PyErr.attributeError ∧
    detect_scamPy PyVal.nonStr ≠ .ok (false, 0) := by
  refine ⟨rfl, fun hcontra => ?_⟩
  exact Except.noConfusion hcontra

/-- C5 (amended): detect_scam on an empty or whitespace-only string
returns (false, 0.0) and raises no exception; on a non-string value it
raises (see the counterexample). -/
theorem detect_scam_blank_input (s : Str) (h : ∀ c ∈ s, c.isWhitespace = true) :
    detect_scamPy (PyVal.pstr s) = .ok (false, 0) := by
  have hws : ∀ c ∈ s.map Char.toLower, c.isWhitespace = true := by
    intro c hc
    obtain ⟨d, hd, rfl⟩ := List.mem_map.mp hc
    rw [toLower_of_isWhitespace d (h d hd)]
    exact h d hd
  have hkw : ∀ w ∈ SCAM_KEYWORDS, ¬ pyIn w (s.map Char.toLower) = true := by
    intro w hw hx
    have hsub := mem_of_pyIn w _ hx
    fin_cases hw <;> exact absurd (hws _ (hsub _ (List.mem_cons_self ..))) (by decide)
  have hurg : ∀ w ∈ URGENCY_KEYWORDS, ¬ pyIn w (s.map Char.toLower) = true := by
    intro w hw hx
    have hsub := mem_of_pyIn w _ hx
    fin_cases hw <;> exact absurd (hws _ (hsub _ (List.mem_cons_self ..))) (by decide)
  have hpay : ∀ w ∈ PAYMENT_KEYWORDS, ¬ pyIn w (s.map Char.toLower) = true := by
    intro w hw hx
    have hsub := mem_of_pyIn w _ hx
    fin_cases hw <;> exact absurd (hws _ (hsub _ (List.mem_cons_self ..))) (by decide)
  show Except.ok (detect_scam s) = .ok (false, 0)
  unfold detect_scam
  dsimp only
  rw [List.countP_eq_zero.mpr hkw,
      List.any_eq_false.mpr hurg, List.any_eq_false.mpr hpay,
      urlSearch_eq_false_of_whitespace s h, upiSearch_eq_false_of_whitespace s h,
      show bankSearch s = false from bankSearchAux_eq_false_of_whitespace s h false]
  rfl

/-- Witness for C5 (amended) at concrete inputs: the empty string and a
whitespace-only string both give (false, 0.0). -/
theorem detect_scam_blank_input_witness :
    detect_scamPy (PyVal.pstr (str "")) = .ok (false, 0) ∧
    detect_scamPy (PyVal.pstr (str "  ")) = .ok (false, 0) :=
  ⟨detect_scam_blank_input (str "") (by decide),
   detect_scam_blank_input (str "  ") (by decide)⟩

/-- C6 counterexample: on a non-string value extract_entities raises a
TypeError (re.findall on lines 99-102 has no type guard) instead of
returning the four empty sequences as the claim states. -/
theorem extract_entities_non_string_counterexample :
    extract_entitiesPy PyVal.nonStr ≠
      .ok { upi_ids := [], bank_accounts := [], ifsc_codes := [], phishing_links := [] } := by
  intro hcontra
  exact Except.noConfusion hcontra

/-- C6 (amended): extract_entities applied to a non-string value raises
a TypeError; no entity set is returned. -/
theorem extract_entities_non_string_raises :
    extract_entitiesPy PyVal.nonStr = .error PyErr.typeError := rfl

/-! ## Claim C10 -/

/-- C10: any message containing the substring urgent after lowering (so
any letter-case variant of urgent in the raw message) is flagged as a
scam, with confidence at least 0.6: the keyword contribution is at
least 0.4 and the urgency contribution adds 0.2. -/
theorem detect_scam_urgent_message (m : Str)
    (h : pyIn (str "urgent") (m.map Char.toLower) = true) :
    (detect_scam m).1 = true ∧ 60 ≤ (detect_scam m).2 := by
  unfold detect_scam
  dsimp only
  have hkc : 0 < SCAM_KEYWORDS.countP (fun w => pyIn w (m.map Char.toLower)) :=
    List.countP_pos_iff.mpr ⟨str "urgent", by decide, h⟩
  have hurg : URGENCY_KEYWORDS.any (fun w => pyIn w (m.map Char.toLower)) = true :=
    List.any_eq_true.mpr ⟨str "urgent", by decide, h⟩
  rw [if_pos hkc, if_pos hurg]
  refine ⟨decide_eq_true ?_, ?_⟩ <;> split_ifs <;> omega

/-- Witness for C10 at a concrete input: an upper-case URGENT message. -/
theorem detect_scam_urgent_message_witness :
    (detect_scam (str "URGENT!!")).1 = true ∧ 60 ≤ (detect_scam (str "URGENT!!")).2 :=
  detect_scam_urgent_message (str "URGENT!!") (by decide)

/-! ## Claim C4 -/

/-- C4 counterexample: with the fault of test_robustness injected into
the scorer, the body of the POST handler raises, yet the caller-visible
confidence is 0.8, not the zero the claim states. -/
theorem honeypot_post_fault_counterexample :
    honeypot_body crashingLogic [] "crash" (str "hi") = .error PyErr.valueError ∧
    (honeypot_post crashingLogic [] "crash" (str "hi")).1.confidence ≠ 0 := by
  exact ⟨rfl, by decide⟩

/-- C4 (amended): whenever any logic call inside the request pipeline
raises, the handler catches the fault and the caller-visible result is
the safe default response of main.py: is_scam false, confidence 0.8
(not zero), the neutral reply, persona state idle, empty entities, with
the store left untouched; the fault is never propagated. -/
theorem honeypot_post_fault_safe (L : LogicModule) (store : Store)
    (conversation_id : String) (message : Str) (e : PyErr)
    (h : honeypot_body L store conversation_id message = .error e) :
    honeypot_post L store conversation_id message =
      (get_safe_response (str "Internal error handled safely."), store) ∧
    (honeypot_post L store conversation_id message).1.is_scam = false ∧
    (honeypot_post L store conversation_id message).1.confidence = 80 ∧
    (honeypot_post L store conversation_id message).1.persona_state = str "idle" := by
  unfold honeypot_post
  rw [h]
  exact ⟨rfl, rfl, rfl, rfl⟩

/-- Witness for C4 (amended) at a concrete point: the injected scorer
fault of test_robustness. -/
theorem honeypot_post_fault_safe_witness :
    honeypot_post crashingLogic [] "crash" (str "hi") =
      (get_safe_response (str "Internal error handled safely."), []) ∧
    (honeypot_post crashingLogic [] "crash" (str "hi")).1.is_scam = false ∧
    (honeypot_post crashingLogic [] "crash" (str "hi")).1.confidence = 80 ∧
    (honeypot_post crashingLogic [] "crash" (str "hi")).1.persona_state = str "idle" :=
  honeypot_post_fault_safe crashingLogic [] "crash" (str "hi") PyErr.valueError rfl

end HoneypotApi
